import Mathlib

/-!
Verification of the SolaX Cloud integration (`solax_cloud`): a shallow
embedding of the modules `solax_cloud.py`, `config_flow.py` and `sensor.py`,
together with theorems settling the specification claims about them.

Conventions of the embedding:
* A parsed JSON value is the inductive `Json`; a JSON object is an
  association list of fields (`lookup` is the Python dict subscript, which
  on a missing key raises `KeyError`).
* The HTTP interaction performed by `httpx` is abstracted as an
  `HttpOutcome`: either a transport error (`httpx.RequestError`, covering
  connection refused, timeout and DNS failure) or a response carrying a
  status code and a body.  A body that is not valid JSON is `Option.none`:
  `response.json()` raises `json.JSONDecodeError` on it, an exception that
  is NOT a subclass of `httpx.RequestError`.
* A Python function that can raise is embedded as a total function into an
  outcome type with one constructor per exception that can escape.
-/

namespace SolaxCloud

/-- A parsed JSON value.  Numbers are modelled as integers, which covers
every value the claims mention; the integer status codes of the vendor
protocol parse to Python `int`, so the comparisons `data["code"] == 103`
and `== 0` are exact integer equalities. -/
inductive Json where
  | null : Json
  | bool (b : Bool) : Json
  | num (n : Int) : Json
  | str (s : String) : Json
  | arr (elems : List Json) : Json
  | obj (fields : List (String × Json)) : Json

/-- A JSON object body: the association list of its fields. -/
abbrev JsonObj := List (String × Json)

/-- Transport-level failures raised by the HTTP client as
`httpx.RequestError` (connection refused, timeout, DNS failure, protocol
errors on the wire). -/
inductive TransportError where
  | connectError : TransportError
  | timeout : TransportError
  | dnsFailure : TransportError
  | remoteProtocolError : TransportError
deriving DecidableEq

/-- The outcome of the `client.get(...)` call and subsequent body parse:
either the transport raised `httpx.RequestError`, or a response arrived
with a status code and a body.  `body = none` means the body is not valid
JSON, so `response.json()` raises `json.JSONDecodeError` (not caught by
`except httpx.RequestError`).  The remote API documents its bodies as JSON
objects, so parsed bodies are modelled as objects. -/
inductive HttpOutcome where
  | requestError (e : TransportError) : HttpOutcome
  | response (status : Nat) (body : Option JsonObj) : HttpOutcome

/-- Everything `SolaXCloudAPI.fetch_api_data` can do: return a value
(`ok` for `return data["result"]`, `retNone` for falling off the end of
the function, which in Python returns `None`), raise one of the three
module exceptions, or let a builtin exception escape (`KeyError` from a
dict subscript, `json.JSONDecodeError` from `response.json()`). -/
inductive FetchOutcome where
  | ok (result : Json) : FetchOutcome
  | retNone : FetchOutcome
  | invalidAPIToken : FetchOutcome
  | invalidDeviceSN : FetchOutcome
  | connectionFailed (cause : Option TransportError) : FetchOutcome
  | keyError (key : String) : FetchOutcome
  | jsonDecodeError : FetchOutcome

/-- Python `"success" in data and data["success"] is True`: the key is
present and its value is the boolean `True` (the `is` identity test on the
`True` singleton rejects every non-boolean truthy value). -/
def successIsTrue (data : JsonObj) : Bool :=
  match data.lookup "success" with
  | some (Json.bool true) => true
  | _ => false

/-- Python `value == n` for an `int` literal `n`: true exactly on an equal
JSON number (equality between an `int` and any non-number is `False`). -/
def codeEq (value : Json) (n : Int) : Bool :=
  match value with
  | Json.num m => m == n
  | _ => false

/-- `SolaXCloudAPI.fetch_api_data` (solax_cloud.py lines 31-52), response
classification only (the lock and watchdog of lines 33-34 are modelled
separately, see `step` below):

* `except httpx.RequestError as err: raise ConnectionFailed from err`;
* status 200, unparseable body: `response.json()` raises
  `json.JSONDecodeError`, which the `except` clause does not catch;
* status 200, `"success" in data and data["success"] is True`:
  `return data["result"]` (a `KeyError` if the body has no `result`);
* otherwise `data["code"]` (a `KeyError` if absent) is compared against
  103 and 0, and any other value falls to `raise ConnectionFailed`;
* a status other than 200 skips the whole block and the function ends,
  implicitly returning `None`. -/
def fetch_api_data (out : HttpOutcome) : FetchOutcome :=
  match out with
  | HttpOutcome.requestError e => FetchOutcome.connectionFailed (some e)
  | HttpOutcome.response status body =>
    if status = 200 then
      match body with
      | none => FetchOutcome.jsonDecodeError
      | some data =>
        if successIsTrue data then
          match data.lookup "result" with
          | some r => FetchOutcome.ok r
          | none => FetchOutcome.keyError "result"
        else
          match data.lookup "code" with
          | none => FetchOutcome.keyError "code"
          | some c =>
            if codeEq c 103 then FetchOutcome.invalidAPIToken
            else if codeEq c 0 then FetchOutcome.invalidDeviceSN
            else FetchOutcome.connectionFailed none
    else FetchOutcome.retNone

/-! ### `fetch_device_metadata` and the config flow (`config_flow.py`) -/

/-- Everything `SolaXCloudAPI.fetch_device_metadata` (solax_cloud.py lines
61-84) can do.  Same response classification as `fetch_api_data`, but the
success path builds `{"sn": device_id, "inverterSN": data["result"]["inverterSN"]}`:
a missing `result` key raises `KeyError`, a non-object `result` raises
`TypeError` on the subscript, a `result` object without `inverterSN` raises
`KeyError`. -/
inductive MetadataOutcome where
  | ok (sn : String) (inverterSN : Json) : MetadataOutcome
  | retNone : MetadataOutcome
  | invalidAPIToken : MetadataOutcome
  | invalidDeviceSN : MetadataOutcome
  | connectionFailed (cause : Option TransportError) : MetadataOutcome
  | keyError (key : String) : MetadataOutcome
  | typeError : MetadataOutcome
  | jsonDecodeError : MetadataOutcome

/-- `SolaXCloudAPI.fetch_device_metadata` (solax_cloud.py lines 61-84). -/
def fetch_device_metadata (device_id : String) (out : HttpOutcome) :
    MetadataOutcome :=
  match out with
  | HttpOutcome.requestError e => MetadataOutcome.connectionFailed (some e)
  | HttpOutcome.response status body =>
    if status = 200 then
      match body with
      | none => MetadataOutcome.jsonDecodeError
      | some data =>
        if successIsTrue data then
          match data.lookup "result" with
          | none => MetadataOutcome.keyError "result"
          | some (Json.obj resultFields) =>
            match resultFields.lookup "inverterSN" with
            | some sn => MetadataOutcome.ok device_id sn
            | none => MetadataOutcome.keyError "inverterSN"
          | some _ => MetadataOutcome.typeError
        else
          match data.lookup "code" with
          | none => MetadataOutcome.keyError "code"
          | some c =>
            if codeEq c 103 then MetadataOutcome.invalidAPIToken
            else if codeEq c 0 then MetadataOutcome.invalidDeviceSN
            else MetadataOutcome.connectionFailed none
    else MetadataOutcome.retNone

/-- An exception escaping `validate_input` (config_flow.py lines 33-53).
`connectionError` is the Python BUILTIN `ConnectionError`: the handler
`except ConnectionFailed as err: raise ConnectionError from err` raises
the builtin, not the module's `CannotConnect` class.  `cannotConnect` is
`config_flow.CannotConnect`, which no code ever raises. -/
inductive FlowException where
  | cannotConnect : FlowException
  | invalidApiKey : FlowException
  | invalidDevice : FlowException
  | connectionError : FlowException
  | keyError (key : String) : FlowException
  | typeError : FlowException
  | jsonDecodeError : FlowException

/-- The result of `validate_input` (config_flow.py lines 33-53): either
the `{"title", "sn"}` dict or an escaping exception. -/
inductive ValidateOutcome where
  | ok (title : String) (sn : String) : ValidateOutcome
  | raised (e : FlowException) : ValidateOutcome

/-- `validate_input` (config_flow.py lines 33-53): maps the three client
exception classes (`InvalidAPIToken` to `InvalidApiKey`, `InvalidDeviceSN`
to `InvalidDevice`, `ConnectionFailed` to the builtin `ConnectionError`)
and lets everything else escape unchanged.  A `None` return from
`fetch_device_metadata` makes `metadata["sn"]` raise `TypeError`. -/
def validate_input (m : MetadataOutcome) : ValidateOutcome :=
  match m with
  | MetadataOutcome.ok sn _ => ValidateOutcome.ok sn sn
  | MetadataOutcome.retNone => ValidateOutcome.raised FlowException.typeError
  | MetadataOutcome.invalidAPIToken =>
      ValidateOutcome.raised FlowException.invalidApiKey
  | MetadataOutcome.invalidDeviceSN =>
      ValidateOutcome.raised FlowException.invalidDevice
  | MetadataOutcome.connectionFailed _ =>
      ValidateOutcome.raised FlowException.connectionError
  | MetadataOutcome.keyError k => ValidateOutcome.raised (FlowException.keyError k)
  | MetadataOutcome.typeError => ValidateOutcome.raised FlowException.typeError
  | MetadataOutcome.jsonDecodeError =>
      ValidateOutcome.raised FlowException.jsonDecodeError

/-- The outcome of `ConfigFlow.async_step_user` (config_flow.py lines
62-85) once user input was submitted: a created entry, or the form shown
again with `errors["base"]` set. -/
inductive StepUserResult where
  | createEntry (title : String) : StepUserResult
  | showFormWithError (base : String) : StepUserResult

/-- `ConfigFlow.async_step_user` (config_flow.py lines 62-85), handler
chain: `except CannotConnect` sets `"cannot_connect"`, `except
InvalidApiKey` sets `"invalid_api_key"`, `except InvalidDevice` sets
`"invalid_device"`, the final `except Exception` sets `"unknown"`. -/
def async_step_user (v : ValidateOutcome) : StepUserResult :=
  match v with
  | ValidateOutcome.ok title _ => StepUserResult.createEntry title
  | ValidateOutcome.raised FlowException.cannotConnect =>
      StepUserResult.showFormWithError "cannot_connect"
  | ValidateOutcome.raised FlowException.invalidApiKey =>
      StepUserResult.showFormWithError "invalid_api_key"
  | ValidateOutcome.raised FlowException.invalidDevice =>
      StepUserResult.showFormWithError "invalid_device"
  | ValidateOutcome.raised _ => StepUserResult.showFormWithError "unknown"

/-- The user-facing error message produced at setup time for a given
client metadata-fetch outcome: `validate_input` composed with
`async_step_user`. -/
def setupResult (m : MetadataOutcome) : StepUserResult :=
  async_step_user (validate_input m)

/-! ### The poll coordinator (`sensor.py`, `SolaXAPICoordinator`) -/

/-- The refresh result of one coordinator poll: `updated d` means
`_async_update_data` returned `d` (which becomes `coordinator.data`;
`none` when `fetch_api_data` returned `None`), `authFailed` is
`ConfigEntryAuthFailed`, `updateFailed` is `UpdateFailed`; the two
`uncaught` constructors are builtin exceptions that no handler in
`_async_update_data` catches. -/
inductive UpdateResult where
  | updated (data : Option Json) : UpdateResult
  | authFailed : UpdateResult
  | updateFailed : UpdateResult
  | uncaughtKeyError (key : String) : UpdateResult
  | uncaughtJsonDecodeError : UpdateResult

/-- The exception-handler chain of `SolaXAPICoordinator._async_update_data`
(sensor.py lines 135-147): `InvalidAPIToken` and `InvalidDeviceSN` are
re-raised as `ConfigEntryAuthFailed`, `ConnectionFailed` as
`UpdateFailed`; anything else escapes. -/
def classifyFetch (r : FetchOutcome) : UpdateResult :=
  match r with
  | FetchOutcome.ok result => UpdateResult.updated (some result)
  | FetchOutcome.retNone => UpdateResult.updated none
  | FetchOutcome.invalidAPIToken => UpdateResult.authFailed
  | FetchOutcome.invalidDeviceSN => UpdateResult.authFailed
  | FetchOutcome.connectionFailed _ => UpdateResult.updateFailed
  | FetchOutcome.keyError k => UpdateResult.uncaughtKeyError k
  | FetchOutcome.jsonDecodeError => UpdateResult.uncaughtJsonDecodeError

/-- `SolaXAPICoordinator._async_update_data` (sensor.py lines 135-147)
over a stream of pending API interaction outcomes: the body performs
exactly one `await self._api.fetch_api_data(...)` (there is no retry
loop), so one poll consumes exactly one element of the stream and
classifies it; `none` when no interaction is available. -/
def _async_update_data (stream : List FetchOutcome) :
    Option (UpdateResult × List FetchOutcome) :=
  match stream with
  | [] => none
  | r :: rest => some (classifyFetch r, rest)

/-! ### The sensor entities (`sensor.py`, `SolaXSensor` and subclasses) -/

mutual

/-- Python `==` between two parsed JSON values: structural equality (on
the integer-valued numbers of this model Python numeric equality is exact
structural equality). -/
def Json.beq : Json → Json → Bool
  | Json.null, Json.null => true
  | Json.bool a, Json.bool b => a == b
  | Json.num a, Json.num b => a == b
  | Json.str a, Json.str b => a == b
  | Json.arr xs, Json.arr ys => Json.beqList xs ys
  | Json.obj fs, Json.obj gs => Json.beqFields fs gs
  | _, _ => false

/-- Elementwise Python `==` on JSON arrays. -/
def Json.beqList : List Json → List Json → Bool
  | [], [] => true
  | x :: xs, y :: ys => Json.beq x y && Json.beqList xs ys
  | _, _ => false

/-- Fieldwise Python `==` on JSON objects (association lists). -/
def Json.beqFields : List (String × Json) → List (String × Json) → Bool
  | [], [] => true
  | (k1, v1) :: fs, (k2, v2) :: gs =>
      k1 == k2 && Json.beq v1 v2 && Json.beqFields fs gs
  | _, _ => false

end

/-- Python truthiness of a parsed JSON value (`if data[key] ...`):
`None`, `False`, `0`, `""`, `[]` and `{}` are falsy. -/
def Json.truthy : Json → Bool
  | Json.null => false
  | Json.bool b => b
  | Json.num n => n != 0
  | Json.str s => s != ""
  | Json.arr xs => !xs.isEmpty
  | Json.obj fs => !fs.isEmpty

/-- Python `self._current_value != value`: `None` compares unequal to
every JSON value, otherwise structural `!=`. -/
def currentValueNe (currentValue : Option Json) (v : Json) : Bool :=
  match currentValue with
  | none => true
  | some w => !(Json.beq w v)

/-- `SolaXSensor._handle_coordinator_update` (sensor.py lines 174-187) as
a state transformer: given the coordinator snapshot, the sensor's data
key and its stored `_current_value`, returns the new stored value and
whether `async_write_ha_state` was called; `none` is the `KeyError`
raised by `self.coordinator.data[self._data_key]` on a missing key.
The guard is Python short-circuit `and`:
`if data[key] and current != data[key]`. -/
def _handle_coordinator_update (data : JsonObj) (dataKey : String)
    (currentValue : Option Json) : Option (Option Json × Bool) :=
  match data.lookup dataKey with
  | none => none
  | some v =>
    if v.truthy && currentValueNe currentValue v then some (some v, true)
    else some (currentValue, false)

/-- The two `limit_values` markers of `const.py`
(`BIDIRECTIONAL_ABOVE_ZERO`, `BIDIRECTIONAL_BELOW_ZERO`). -/
inductive LimitValues where
  | aboveZero : LimitValues
  | belowZero : LimitValues
deriving DecidableEq

/-- `BiDirectionalPowerSensor.native_value` (sensor.py lines 218-227):
`None` stays `None`; `abs(max(0, v))` for the above-zero marker,
`abs(min(0, v))` for the below-zero marker, `None` otherwise.  The raw
value is modelled as an integer; the projection uses only order and sign
operations, which are exact. -/
def native_value (limit_values : LimitValues) (currentValue : Option Int) :
    Option Int :=
  match currentValue with
  | none => none
  | some v =>
    if limit_values = LimitValues.aboveZero then some (abs (max 0 v))
    else if limit_values = LimitValues.belowZero then some (abs (min 0 v))
    else none

/-- `async_setup_entry` (sensor.py lines 56-64): the "Battery power
charging" sensor is built on `batPower` with `BIDIRECTIONAL_ABOVE_ZERO`. -/
def batteryChargingLimit : LimitValues := LimitValues.aboveZero

/-- `async_setup_entry` (sensor.py lines 65-73): the "Battery power
discharging" sensor is built on `batPower` with
`BIDIRECTIONAL_BELOW_ZERO`. -/
def batteryDischargingLimit : LimitValues := LimitValues.belowZero

/-! ### The polling lock and watchdog (`solax_cloud.py` lines 26-59)

A discrete-time model of two back-to-back `fetch_api_data` calls against
one `SolaXCloudAPI` instance.  The code events that touch the lock are:

* `await self._polling_lock.acquire()` followed immediately by
  `create_task(self._polling_timeout())` and the `client.get` send
  (lines 33-39): acquisition, arming a watchdog for 10 seconds later and
  starting the request happen together;
* `_polling_timeout` (lines 54-59): 10 seconds after being armed it
  releases the lock if it is held.

Nothing else touches the lock: in particular the `return` in line 44 and
the `raise` statements do NOT release it, so the arrival of the response
and the completion of a call leave the lock state unchanged.  The machine
therefore needs no response events; the completion time of call `i` is the
derived observation `send time + latency` (`completionTime`). -/

/-- The per-call state: when the call acquired the lock and when it sent
its request (`none` while it is still waiting on `acquire()`). -/
structure CallState where
  acquired : Option Nat
  sent : Option Nat
deriving DecidableEq

/-- The state of the two-call scenario: current time (seconds), whether
`_polling_lock` is held, the pending watchdog fire times, the times at
which a watchdog released the lock, and the two calls (both invoked
back-to-back at time 0, the first one first in the waiter queue). -/
structure SimState where
  time : Nat
  lockHeld : Bool
  watchdogs : List Nat
  releases : List Nat
  c1 : CallState
  c2 : CallState
deriving DecidableEq

/-- Initial state: lock free, both calls waiting. -/
def initState : SimState :=
  { time := 0, lockHeld := false, watchdogs := [], releases := [],
    c1 := { acquired := none, sent := none },
    c2 := { acquired := none, sent := none } }

/-- `_polling_timeout` bodies due at the current time (solax_cloud.py
lines 54-59): each checks `self._polling_lock.locked()` and releases; the
net effect of all due watchdogs is that the lock ends free, recorded as a
release if it was held. -/
def fireWatchdogs (s : SimState) : SimState :=
  if s.watchdogs.any (fun t => t == s.time) then
    { s with
      watchdogs := s.watchdogs.filter (fun t => t != s.time),
      lockHeld := false,
      releases := if s.lockHeld then s.releases ++ [s.time] else s.releases }
  else s

/-- If the lock is free, the first still-waiting call acquires it, arms a
watchdog for `time + 10` (`create_task(self._polling_timeout())`) and
sends its request (solax_cloud.py lines 33-39). -/
def tryAcquire (s : SimState) : SimState :=
  if s.lockHeld then s
  else if s.c1.acquired.isNone then
    { s with
      lockHeld := true,
      c1 := { acquired := some s.time, sent := some s.time },
      watchdogs := s.watchdogs ++ [s.time + 10] }
  else if s.c2.acquired.isNone then
    { s with
      lockHeld := true,
      c2 := { acquired := some s.time, sent := some s.time },
      watchdogs := s.watchdogs ++ [s.time + 10] }
  else s

/-- One second of the scenario: due watchdogs run, then a waiting call may
acquire the freed lock, then time advances. -/
def step (s : SimState) : SimState :=
  let s2 := tryAcquire (fireWatchdogs s)
  { s2 with time := s2.time + 1 }

/-- The scenario state after `n` seconds. -/
def run : Nat → SimState
  | 0 => initState
  | n + 1 => step (run n)

/-- The time at which a call's response arrives and the call completes,
given the network latency `d` of its request: the code awaits the
response and returns without touching the lock, so completion is an
observation of the send time, not a machine event. -/
def completionTime (d : Nat) (c : CallState) : Option Nat :=
  c.sent.map (fun t => t + d)

/-- The claim under scrutiny, for a first-call latency `d1`: the second
call begins its request when the first completes (releasing the lock
after receiving its response) or when the 10-second watchdog elapses
after the first acquisition, whichever comes first. -/
def secondStartsAtFirstCompletionOrWatchdog (d1 : Nat) : Prop :=
  ∀ n, 21 ≤ n →
    (run n).c2.sent =
      some (min (((run n).c1.acquired.getD 0) + 10)
                ((completionTime d1 (run n).c1).getD 0))

/-! ## Theorems settling the claims -/

/-- C1: the code raises a bare `KeyError`, not `ConnectionFailed`, on an
HTTP 200 body that lacks both `success: true` and a `code` field: the
subscript `data["code"]` is evaluated before the fallback
`raise ConnectionFailed` can be reached.  A body carrying an
unrecognized numeric `code` does reach the fallback. -/
theorem C1_missing_code_keyError :
    fetch_api_data (HttpOutcome.response 200 (some [("success", Json.bool false)])) =
      FetchOutcome.keyError "code" ∧
    fetch_api_data (HttpOutcome.response 200 (some [("code", Json.num 2)])) =
      FetchOutcome.connectionFailed none :=
  ⟨rfl, rfl⟩

/-- C2: an HTTP response with a status other than 200 (and no transport
error) skips the whole classification block, so `fetch_api_data` falls
off the end of the function and returns `None` normally — it does not
raise `ConnectionFailed`. -/
theorem C2_non200_returns_none :
    fetch_api_data (HttpOutcome.response 500 (some [])) = FetchOutcome.retNone ∧
    (∀ cause, FetchOutcome.retNone ≠ FetchOutcome.connectionFailed cause) :=
  ⟨rfl, fun _ h => FetchOutcome.noConfusion h⟩

/-- Helper for C3: once the scenario has stabilised (both calls acquired,
no pending watchdog, lock free, both releases recorded), one more step
changes nothing but the clock. -/
theorem step_stable (s : SimState)
    (h1 : s.c1.acquired = some 0) (h2 : s.c1.sent = some 0)
    (h3 : s.c2.acquired = some 10) (h4 : s.c2.sent = some 10)
    (h5 : s.watchdogs = []) (h6 : s.lockHeld = false)
    (h7 : s.releases = [10, 20]) :
    (step s).c1.acquired = some 0 ∧ (step s).c1.sent = some 0 ∧
    (step s).c2.acquired = some 10 ∧ (step s).c2.sent = some 10 ∧
    (step s).watchdogs = [] ∧ (step s).lockHeld = false ∧
    (step s).releases = [10, 20] := by
  simp [step, fireWatchdogs, tryAcquire, h1, h2, h3, h4, h5, h6, h7]

/-- Helper for C3: the stabilised state of the two-call scenario, for
every time from 21 seconds on. -/
theorem run_stable (n : Nat) (h : 21 ≤ n) :
    (run n).c1.acquired = some 0 ∧ (run n).c1.sent = some 0 ∧
    (run n).c2.acquired = some 10 ∧ (run n).c2.sent = some 10 ∧
    (run n).watchdogs = [] ∧ (run n).lockHeld = false ∧
    (run n).releases = [10, 20] := by
  induction n, h using Nat.le_induction with
  | base => decide
  | succ n hn ih =>
    obtain ⟨h1, h2, h3, h4, h5, h6, h7⟩ := ih
    exact step_stable (run n) h1 h2 h3 h4 h5 h6 h7

/-- C3 counterexample: with a first-call latency of 2 seconds, the first
call completes at time 2 but the lock is still held at time 3 (completion
does not release it), and the second call's request does not start at
`min(completion, watchdog) = 2`: the stated start rule is false. -/
theorem C3_counterexample :
    ¬ secondStartsAtFirstCompletionOrWatchdog 2 ∧
    completionTime 2 (run 3).c1 = some 2 ∧ (run 3).lockHeld = true := by
  refine ⟨fun h => absurd (h 21 (by decide)) (by decide), by decide, by decide⟩

/-- C3 amended: at most one request is in flight before the watchdog
fires, but completion of the first call never releases the lock — the
second call begins its request exactly when the 10-second watchdog
elapses after the first call's acquisition (at time 10), independent of
the first call's response time, and each call's lock hold is released by
its watchdog exactly 10 seconds after acquisition (at times 10 and 20). -/
theorem C3_second_starts_at_watchdog (n : Nat) (h : 21 ≤ n) :
    (run n).c1.acquired = some 0 ∧ (run n).c2.sent = some 10 ∧
    (run n).releases = [10, 20] ∧ (run n).lockHeld = false := by
  obtain ⟨h1, _, _, h4, _, h6, h7⟩ := run_stable n h
  exact ⟨h1, h4, h7, h6⟩

/-- C3 witness: the amended statement at the concrete time 25. -/
theorem C3_witness :
    21 ≤ 25 ∧
    ((run 25).c1.acquired = some 0 ∧ (run 25).c2.sent = some 10 ∧
     (run 25).releases = [10, 20] ∧ (run 25).lockHeld = false) :=
  ⟨by decide, C3_second_starts_at_watchdog 25 (by decide)⟩

/-- C4: a `ConnectionFailed` during setup validation is re-raised by
`validate_input` as the BUILTIN `ConnectionError`, which
`async_step_user` only catches in its final `except Exception` handler:
the user sees the generic `"unknown"` message, not `"cannot_connect"`
(the `CannotConnect` class exists but is never raised).  The other two
classes are mapped as the claim states. -/
theorem C4_connectionFailed_reports_unknown :
    setupResult (MetadataOutcome.connectionFailed none) =
      StepUserResult.showFormWithError "unknown" ∧
    StepUserResult.showFormWithError "unknown" ≠
      StepUserResult.showFormWithError "cannot_connect" ∧
    setupResult MetadataOutcome.invalidAPIToken =
      StepUserResult.showFormWithError "invalid_api_key" ∧
    setupResult MetadataOutcome.invalidDeviceSN =
      StepUserResult.showFormWithError "invalid_device" := by
  refine ⟨rfl, ?_, rfl, rfl⟩
  intro h
  injection h with h2
  exact absurd h2 (by decide)

/-- C5 counterexample: an HTTP 200 body with `success: true` but no
`result` field makes `return data["result"]` raise `KeyError` — the call
does not return any result object. -/
theorem C5_counterexample :
    fetch_api_data (HttpOutcome.response 200 (some [("success", Json.bool true)])) =
      FetchOutcome.keyError "result" ∧
    ¬ ∃ r,
      fetch_api_data (HttpOutcome.response 200 (some [("success", Json.bool true)])) =
        FetchOutcome.ok r := by
  refine ⟨rfl, ?_⟩
  rintro ⟨r, hr⟩
  rw [show fetch_api_data (HttpOutcome.response 200 (some [("success", Json.bool true)])) =
        FetchOutcome.keyError "result" from rfl] at hr
  exact FetchOutcome.noConfusion hr

/-- C5 amended: for every HTTP 200 response whose body has
`success: true` AND a `result` field, `fetch_api_data` returns exactly
that `result` value unmodified; a body without a `result` field raises
`KeyError` instead. -/
theorem C5_returns_result_unmodified (fields : JsonObj) (r : Json)
    (hsucc : successIsTrue fields = true)
    (hres : fields.lookup "result" = some r) :
    fetch_api_data (HttpOutcome.response 200 (some fields)) = FetchOutcome.ok r := by
  simp [fetch_api_data, hsucc, hres]

/-- C5 witness: the amended statement on the scenario-A body. -/
theorem C5_witness :
    successIsTrue [("success", Json.bool true),
      ("result", Json.obj [("acpower", Json.num 1500)])] = true ∧
    List.lookup "result" [("success", Json.bool true),
      ("result", Json.obj [("acpower", Json.num 1500)])] =
      some (Json.obj [("acpower", Json.num 1500)]) ∧
    fetch_api_data (HttpOutcome.response 200 (some [("success", Json.bool true),
      ("result", Json.obj [("acpower", Json.num 1500)])])) =
      FetchOutcome.ok (Json.obj [("acpower", Json.num 1500)]) :=
  ⟨rfl, rfl, C5_returns_result_unmodified _ _ rfl rfl⟩

/-- C6: on an HTTP 200 body without `success: true`, a `code` equal to
103 raises `InvalidAPIToken` and a `code` equal to 0 raises
`InvalidDeviceSN`. -/
theorem C6_code_classification (fields : JsonObj)
    (hsucc : successIsTrue fields = false) :
    (fields.lookup "code" = some (Json.num 103) →
      fetch_api_data (HttpOutcome.response 200 (some fields)) =
        FetchOutcome.invalidAPIToken) ∧
    (fields.lookup "code" = some (Json.num 0) →
      fetch_api_data (HttpOutcome.response 200 (some fields)) =
        FetchOutcome.invalidDeviceSN) := by
  constructor <;> intro h <;> simp [fetch_api_data, hsucc, h, codeEq]

/-- C6 witness: the two classifications on concrete bodies. -/
theorem C6_witness :
    successIsTrue [("code", Json.num 103)] = false ∧
    List.lookup "code" [("code", Json.num 103)] = some (Json.num 103) ∧
    fetch_api_data (HttpOutcome.response 200 (some [("code", Json.num 103)])) =
      FetchOutcome.invalidAPIToken ∧
    successIsTrue [("code", Json.num 0)] = false ∧
    List.lookup "code" [("code", Json.num 0)] = some (Json.num 0) ∧
    fetch_api_data (HttpOutcome.response 200 (some [("code", Json.num 0)])) =
      FetchOutcome.invalidDeviceSN :=
  ⟨rfl, rfl, (C6_code_classification [("code", Json.num 103)] rfl).1 rfl,
   rfl, rfl, (C6_code_classification [("code", Json.num 0)] rfl).2 rfl⟩

/-- C7: every `httpx.RequestError` (connection refused, timeout, DNS
failure, wire protocol error) is re-raised as `ConnectionFailed` carrying
the underlying error as context — but an HTTP 200 response whose body is
not parseable JSON makes `response.json()` raise `json.JSONDecodeError`,
which `except httpx.RequestError` does not catch, so that exception
escapes instead of `ConnectionFailed`. -/
theorem C7_transport_wrapped_parse_escapes :
    (∀ e, fetch_api_data (HttpOutcome.requestError e) =
      FetchOutcome.connectionFailed (some e)) ∧
    fetch_api_data (HttpOutcome.response 200 none) =
      FetchOutcome.jsonDecodeError ∧
    (∀ cause, FetchOutcome.jsonDecodeError ≠ FetchOutcome.connectionFailed cause) :=
  ⟨fun _ => rfl, rfl, fun _ h => FetchOutcome.noConfusion h⟩

/-- C8: one coordinator poll consumes exactly one fetch outcome (no
synchronous retry) and classifies `InvalidAPIToken` and `InvalidDeviceSN`
as `ConfigEntryAuthFailed` and `ConnectionFailed` as `UpdateFailed`. -/
theorem C8_poll_classification (rest : List FetchOutcome)
    (cause : Option TransportError) :
    _async_update_data (FetchOutcome.invalidAPIToken :: rest) =
      some (UpdateResult.authFailed, rest) ∧
    _async_update_data (FetchOutcome.invalidDeviceSN :: rest) =
      some (UpdateResult.authFailed, rest) ∧
    _async_update_data (FetchOutcome.connectionFailed cause :: rest) =
      some (UpdateResult.updateFailed, rest) :=
  ⟨rfl, rfl, rfl⟩

/-- C9: the above-zero projection is `max(0, v)` (the code's
`abs(max(0, v))` equals it since `max(0, v)` is nonnegative), the
below-zero projection is `abs(min(0, v))`, and for `batPower = -300` the
charging sensor (above-zero) reads 0 and the discharging sensor
(below-zero) reads 300. -/
theorem C9_bidirectional_projection (v : Int) :
    native_value LimitValues.aboveZero (some v) = some (max 0 v) ∧
    native_value LimitValues.belowZero (some v) = some (abs (min 0 v)) ∧
    native_value batteryChargingLimit (some (-300)) = some 0 ∧
    native_value batteryDischargingLimit (some (-300)) = some 300 := by
  refine ⟨?_, by simp [native_value], by decide, by decide⟩
  simp [native_value, abs_of_nonneg (le_max_left 0 v)]

/-- C10: when the snapshot value for the sensor's key is falsy (0, null,
false, empty), `_handle_coordinator_update` keeps the stored value
unchanged and does not call `async_write_ha_state`, whatever the
previously stored value was. -/
theorem C10_falsy_update_ignored (data : JsonObj) (dataKey : String)
    (currentValue : Option Json) (v : Json)
    (hv : data.lookup dataKey = some v) (hfalsy : v.truthy = false) :
    _handle_coordinator_update data dataKey currentValue =
      some (currentValue, false) := by
  simp [_handle_coordinator_update, hv, hfalsy]

/-- C10 witness: a snapshot with `soc = 0` leaves a stored value of 50 in
place with no state notification. -/
theorem C10_witness :
    List.lookup "soc" [("soc", Json.num 0)] = some (Json.num 0) ∧
    (Json.num 0).truthy = false ∧
    _handle_coordinator_update [("soc", Json.num 0)] "soc"
      (some (Json.num 50)) = some (some (Json.num 50), false) :=
  ⟨rfl, rfl, C10_falsy_update_ignored _ _ _ _ rfl rfl⟩

end SolaxCloud
